import Mathlib

/-!
# Connection-reference mapper of the Pulsar resources operator

A shallow embedding of `controllers/connection_ref_mapper.go`.

* Go strings are embedded as `String`; the code only compares them with `""`
  and concatenates them.
* A pointer result that may be `nil` is an `Option`.
* A `[]reconcile.Request` is a `List Request`; the `nil` slice is `[]`.
* `client.Object` is the sum of the ten resource kinds the type switch of
  `getConnectionRef` names and of one constructor for every other kind.
  Objects are values: the nil interface and typed nil pointers are not objects
  of the model.
-/

namespace Controllers

/-! ## Data model -/

/-- Modelled from the spec: the type `pulsarv1alpha1.PulsarConnectionRef` is declared in
`api/v1alpha1`, outside the source file. The spec gives it a name and an optional
namespace; the code reads the fields `Name` and `Namespace`. -/
structure PulsarConnectionRef where
  Name : String
  Namespace : String
  deriving DecidableEq, Repr

/-- The part of `metav1.ObjectMeta` of apimachinery that identifies an object: its own
name and namespace. The mapper reads the namespace through `GetNamespace`. -/
structure ObjectMeta where
  Name : String
  Namespace : String
  deriving DecidableEq, Repr

/-- Modelled from the spec: the `Spec` of a resource that declares a connection reference.
The ten spec types of `api/v1alpha1` are outside the source file; each has one
`ConnectionRef` field, and `Rest` stands for all of its other fields. -/
structure ResourceSpec where
  ConnectionRef : PulsarConnectionRef
  Rest : List (String × String)
  deriving DecidableEq, Repr

/-- Modelled from the spec: a resource of one of the ten kinds, its metadata and its spec. -/
structure Resource where
  ObjectMeta : ObjectMeta
  Spec : ResourceSpec
  deriving DecidableEq, Repr

/-- The dynamic type of a `client.Object`: one constructor for each case of the type
switch in `getConnectionRef`, and `Other` for an object of any other kind (it has
metadata but no `Spec.ConnectionRef` the mapper can reach). -/
inductive Object where
  | PulsarTenant (v : Resource)
  | PulsarNamespace (v : Resource)
  | PulsarTopic (v : Resource)
  | PulsarPermission (v : Resource)
  | PulsarGeoReplication (v : Resource)
  | PulsarFunction (v : Resource)
  | PulsarSource (v : Resource)
  | PulsarSink (v : Resource)
  | PulsarPackage (v : Resource)
  | PulsarNSIsolationPolicy (v : Resource)
  | Other (kind : String) (m : ObjectMeta)
  deriving DecidableEq, Repr

/-- The method `GetNamespace` of `client.Object`: the namespace in the object's metadata. -/
def Object.GetNamespace : Object → String
  | .PulsarTenant v => v.ObjectMeta.Namespace
  | .PulsarNamespace v => v.ObjectMeta.Namespace
  | .PulsarTopic v => v.ObjectMeta.Namespace
  | .PulsarPermission v => v.ObjectMeta.Namespace
  | .PulsarGeoReplication v => v.ObjectMeta.Namespace
  | .PulsarFunction v => v.ObjectMeta.Namespace
  | .PulsarSource v => v.ObjectMeta.Namespace
  | .PulsarSink v => v.ObjectMeta.Namespace
  | .PulsarPackage v => v.ObjectMeta.Namespace
  | .PulsarNSIsolationPolicy v => v.ObjectMeta.Namespace
  | .Other _ m => m.Namespace

/-- The struct `ConnectionRefInfo`: the connection reference name and namespace. -/
structure ConnectionRefInfo where
  Name : String
  Namespace : String
  deriving DecidableEq, Repr

/-- The struct `types.NamespacedName` of apimachinery. -/
structure NamespacedName where
  Namespace : String
  Name : String
  deriving DecidableEq, Repr

/-- The struct `reconcile.Request` of controller-runtime. -/
structure Request where
  NamespacedName : NamespacedName
  deriving DecidableEq, Repr

/-- The struct `PulsarConnectionRefMapper`; it has no fields. -/
structure PulsarConnectionRefMapper where
  deriving DecidableEq, Repr

/-! ## Operations -/

/-- The function `getConnectionRef`: the type switch over the object's kind. -/
def getConnectionRef (object : Object) : Option PulsarConnectionRef :=
  match object with
  | .PulsarTenant v => some v.Spec.ConnectionRef
  | .PulsarNamespace v => some v.Spec.ConnectionRef
  | .PulsarTopic v => some v.Spec.ConnectionRef
  | .PulsarPermission v => some v.Spec.ConnectionRef
  | .PulsarGeoReplication v => some v.Spec.ConnectionRef
  | .PulsarFunction v => some v.Spec.ConnectionRef
  | .PulsarSource v => some v.Spec.ConnectionRef
  | .PulsarSink v => some v.Spec.ConnectionRef
  | .PulsarPackage v => some v.Spec.ConnectionRef
  | .PulsarNSIsolationPolicy v => some v.Spec.ConnectionRef
  | .Other _ _ => none

/-- The function `getConnectionRefInfo`: the reference with its namespace defaulted to
the object's namespace when it is not specified. -/
def getConnectionRefInfo (object : Object) : Option ConnectionRefInfo :=
  match getConnectionRef object with
  | none => none
  | some ref =>
    let ns := ref.Namespace
    let ns := if ns = "" then object.GetNamespace else ns
    some { Name := ref.Name, Namespace := ns }

/-- The method `PulsarConnectionRefMapper.Map`. -/
def PulsarConnectionRefMapper.Map (_p : PulsarConnectionRefMapper) (object : Object) :
    List Request :=
  match getConnectionRefInfo object with
  | none => []
  | some info => [{ NamespacedName := { Namespace := info.Namespace, Name := info.Name } }]

/-- The function `ConnectionRefMapper`; `Ctx` stands for `context.Context`. -/
def ConnectionRefMapper {Ctx : Type} (_ctx : Ctx) (object : Object) : List Request :=
  match getConnectionRefInfo object with
  | none => []
  | some info => [{ NamespacedName := { Namespace := info.Namespace, Name := info.Name } }]

/-- The function `GetConnectionNamespace`. -/
def GetConnectionNamespace (object : Object) : String :=
  match getConnectionRefInfo object with
  | none => object.GetNamespace
  | some info => info.Namespace

/-- The function `MakeConnectionRefIndexKey`. -/
def MakeConnectionRefIndexKey (name ns : String) : String :=
  ns ++ "/" ++ name

/-! ## Vocabulary of the statements -/

/-- The ten kinds the type switch of `getConnectionRef` names. -/
inductive SupportedKind where
  | pulsarTenant | pulsarNamespace | pulsarTopic | pulsarPermission | pulsarGeoReplication
  | pulsarFunction | pulsarSource | pulsarSink | pulsarPackage | pulsarNSIsolationPolicy
  deriving DecidableEq, Repr

/-- The object of kind `k` holding the resource `v`. -/
def SupportedKind.toObject (k : SupportedKind) (v : Resource) : Object :=
  match k with
  | .pulsarTenant => .PulsarTenant v
  | .pulsarNamespace => .PulsarNamespace v
  | .pulsarTopic => .PulsarTopic v
  | .pulsarPermission => .PulsarPermission v
  | .pulsarGeoReplication => .PulsarGeoReplication v
  | .pulsarFunction => .PulsarFunction v
  | .pulsarSource => .PulsarSource v
  | .pulsarSink => .PulsarSink v
  | .pulsarPackage => .PulsarPackage v
  | .pulsarNSIsolationPolicy => .PulsarNSIsolationPolicy v

/-- A resource given by its name, its namespace and its connection reference. -/
def mkResource (name ns refName refNs : String) : Resource :=
  { ObjectMeta := { Name := name, Namespace := ns },
    Spec := { ConnectionRef := { Name := refName, Namespace := refNs }, Rest := [] } }

/-! ## Shared lemmas -/

theorem getConnectionRef_toObject (k : SupportedKind) (v : Resource) :
    getConnectionRef (k.toObject v) = some v.Spec.ConnectionRef := by
  cases k <;> rfl

theorem GetNamespace_toObject (k : SupportedKind) (v : Resource) :
    (k.toObject v).GetNamespace = v.ObjectMeta.Namespace := by
  cases k <;> rfl

theorem getConnectionRefInfo_toObject (k : SupportedKind) (v : Resource) :
    getConnectionRefInfo (k.toObject v) =
      some { Name := v.Spec.ConnectionRef.Name,
             Namespace := if v.Spec.ConnectionRef.Namespace = "" then v.ObjectMeta.Namespace
                          else v.Spec.ConnectionRef.Namespace } := by
  simp [getConnectionRefInfo, getConnectionRef_toObject, GetNamespace_toObject]

theorem getConnectionRefInfo_of_ref (object : Object) (ref : PulsarConnectionRef)
    (href : getConnectionRef object = some ref) :
    getConnectionRefInfo object =
      some { Name := ref.Name,
             Namespace := if ref.Namespace = "" then object.GetNamespace
                          else ref.Namespace } := by
  simp [getConnectionRefInfo, href]

theorem getConnectionRefInfo_of_none (object : Object) (href : getConnectionRef object = none) :
    getConnectionRefInfo object = none := by
  simp [getConnectionRefInfo, href]

theorem append_sep_inj (l₁ l₂ r₁ r₂ : List Char) (h₁ : '/' ∉ l₁) (h₂ : '/' ∉ l₂)
    (h : l₁ ++ '/' :: r₁ = l₂ ++ '/' :: r₂) : l₁ = l₂ ∧ r₁ = r₂ := by
  induction l₁ generalizing l₂ with
  | nil =>
    cases l₂ with
    | nil => simpa using h
    | cons b t =>
      simp only [List.nil_append, List.cons_append, List.cons.injEq] at h
      exact absurd (List.mem_cons.mpr (Or.inl h.1)) h₂
  | cons a t ih =>
    cases l₂ with
    | nil =>
      simp only [List.nil_append, List.cons_append, List.cons.injEq] at h
      exact absurd (List.mem_cons.mpr (Or.inl h.1.symm)) h₁
    | cons b u =>
      simp only [List.cons_append, List.cons.injEq] at h
      have ht : '/' ∉ t := fun hm => h₁ (List.mem_cons_of_mem _ hm)
      have hu : '/' ∉ u := fun hm => h₂ (List.mem_cons_of_mem _ hm)
      obtain ⟨e₁, e₂⟩ := ih u ht hu h.2
      exact ⟨by rw [h.1, e₁], e₂⟩

theorem MakeConnectionRefIndexKey_data (name ns : String) :
    (MakeConnectionRefIndexKey name ns).data = ns.data ++ '/' :: name.data := by
  simp [MakeConnectionRefIndexKey, String.data_append]

/-! ## Default-namespace resolution -/

/-- C1: for an object of a supported kind whose connection reference has a non-empty name
and an empty namespace, `Map` and `ConnectionRefMapper` return exactly the one request
whose namespace is the object's own namespace and whose name is the reference's name. -/
theorem map_same_namespace {Ctx : Type} (ctx : Ctx) (p : PulsarConnectionRefMapper)
    (k : SupportedKind) (v : Resource)
    (_hname : v.Spec.ConnectionRef.Name ≠ "") (hns : v.Spec.ConnectionRef.Namespace = "") :
    p.Map (k.toObject v) =
        [{ NamespacedName := { Namespace := v.ObjectMeta.Namespace,
                               Name := v.Spec.ConnectionRef.Name } }] ∧
      ConnectionRefMapper ctx (k.toObject v) =
        [{ NamespacedName := { Namespace := v.ObjectMeta.Namespace,
                               Name := v.Spec.ConnectionRef.Name } }] := by
  simp [PulsarConnectionRefMapper.Map, ConnectionRefMapper, getConnectionRefInfo_toObject, hns]

/-- The scenario of C1: the topic `t1` of namespace `ns1` that references `conn1` without
a namespace maps to the request `ns1/conn1`. -/
theorem map_same_namespace_witness :
    (mkResource "t1" "ns1" "conn1" "").Spec.ConnectionRef.Name ≠ "" ∧
    (mkResource "t1" "ns1" "conn1" "").Spec.ConnectionRef.Namespace = "" ∧
    (PulsarConnectionRefMapper.mk).Map (Object.PulsarTopic (mkResource "t1" "ns1" "conn1" "")) =
      [{ NamespacedName := { Namespace := "ns1", Name := "conn1" } }] ∧
    ConnectionRefMapper () (Object.PulsarTopic (mkResource "t1" "ns1" "conn1" "")) =
      [{ NamespacedName := { Namespace := "ns1", Name := "conn1" } }] :=
  ⟨by decide, by decide,
    map_same_namespace () PulsarConnectionRefMapper.mk SupportedKind.pulsarTopic
      (mkResource "t1" "ns1" "conn1" "") (by decide) (by decide)⟩

/-- C2: for an object of a supported kind whose connection reference has a non-empty name
and a non-empty namespace, `Map` (and `ConnectionRefMapper`) returns exactly the one
request whose namespace and name are those of the reference, whatever the object's own
namespace is. -/
theorem map_cross_namespace {Ctx : Type} (ctx : Ctx) (p : PulsarConnectionRefMapper)
    (k : SupportedKind) (v : Resource)
    (_hname : v.Spec.ConnectionRef.Name ≠ "") (hns : v.Spec.ConnectionRef.Namespace ≠ "") :
    p.Map (k.toObject v) =
        [{ NamespacedName := { Namespace := v.Spec.ConnectionRef.Namespace,
                               Name := v.Spec.ConnectionRef.Name } }] ∧
      ConnectionRefMapper ctx (k.toObject v) =
        [{ NamespacedName := { Namespace := v.Spec.ConnectionRef.Namespace,
                               Name := v.Spec.ConnectionRef.Name } }] := by
  simp [PulsarConnectionRefMapper.Map, ConnectionRefMapper, getConnectionRefInfo_toObject, hns]

/-- The scenario of C2: the permission `p1` of namespace `ns1` that references `conn2` in
namespace `ns2` maps to the request `ns2/conn2`. -/
theorem map_cross_namespace_witness :
    (mkResource "p1" "ns1" "conn2" "ns2").Spec.ConnectionRef.Name ≠ "" ∧
    (mkResource "p1" "ns1" "conn2" "ns2").Spec.ConnectionRef.Namespace ≠ "" ∧
    (PulsarConnectionRefMapper.mk).Map
        (Object.PulsarPermission (mkResource "p1" "ns1" "conn2" "ns2")) =
      [{ NamespacedName := { Namespace := "ns2", Name := "conn2" } }] ∧
    ConnectionRefMapper () (Object.PulsarPermission (mkResource "p1" "ns1" "conn2" "ns2")) =
      [{ NamespacedName := { Namespace := "ns2", Name := "conn2" } }] :=
  ⟨by decide, by decide,
    map_cross_namespace () PulsarConnectionRefMapper.mk SupportedKind.pulsarPermission
      (mkResource "p1" "ns1" "conn2" "ns2") (by decide) (by decide)⟩

/-! ## Objects without a mapping -/

/-- C3: for an object that is of none of the ten supported kinds, `getConnectionRef` and
`getConnectionRefInfo` yield absent and `Map` returns the empty sequence. The three
functions are total and their results have no error component, so no error branch
exists to be taken. -/
theorem unsupported_kind_no_mapping (p : PulsarConnectionRefMapper) (object : Object)
    (hkind : ∀ (k : SupportedKind) (v : Resource), object ≠ k.toObject v) :
    getConnectionRef object = none ∧ getConnectionRefInfo object = none ∧
      p.Map object = [] := by
  cases object with
  | Other kind m => exact ⟨rfl, rfl, rfl⟩
  | PulsarTenant v => exact absurd rfl (hkind .pulsarTenant v)
  | PulsarNamespace v => exact absurd rfl (hkind .pulsarNamespace v)
  | PulsarTopic v => exact absurd rfl (hkind .pulsarTopic v)
  | PulsarPermission v => exact absurd rfl (hkind .pulsarPermission v)
  | PulsarGeoReplication v => exact absurd rfl (hkind .pulsarGeoReplication v)
  | PulsarFunction v => exact absurd rfl (hkind .pulsarFunction v)
  | PulsarSource v => exact absurd rfl (hkind .pulsarSource v)
  | PulsarSink v => exact absurd rfl (hkind .pulsarSink v)
  | PulsarPackage v => exact absurd rfl (hkind .pulsarPackage v)
  | PulsarNSIsolationPolicy v => exact absurd rfl (hkind .pulsarNSIsolationPolicy v)

/-- The scenario of C3: an unrelated object, here a `Pod`, yields no reference and maps to
no request. -/
theorem unsupported_kind_no_mapping_witness :
    (∀ (k : SupportedKind) (v : Resource),
        Object.Other "Pod" { Name := "pod1", Namespace := "ns1" } ≠ k.toObject v) ∧
    getConnectionRef (Object.Other "Pod" { Name := "pod1", Namespace := "ns1" }) = none ∧
    getConnectionRefInfo (Object.Other "Pod" { Name := "pod1", Namespace := "ns1" }) = none ∧
    (PulsarConnectionRefMapper.mk).Map
      (Object.Other "Pod" { Name := "pod1", Namespace := "ns1" }) = [] :=
  ⟨fun k v => by cases k <;> simp [SupportedKind.toObject],
    unsupported_kind_no_mapping PulsarConnectionRefMapper.mk
      (Object.Other "Pod" { Name := "pod1", Namespace := "ns1" })
      (fun k v => by cases k <;> simp [SupportedKind.toObject])⟩

/-- C4, as stated, fails: a topic whose connection reference has an empty name still
yields its reference and one request, both when the reference is wholly empty and when
its namespace alone is set. -/
theorem unset_reference_counterexample :
    (mkResource "t1" "ns1" "" "").Spec.ConnectionRef.Name = "" ∧
    getConnectionRef (Object.PulsarTopic (mkResource "t1" "ns1" "" "")) ≠ none ∧
    (PulsarConnectionRefMapper.mk).Map (Object.PulsarTopic (mkResource "t1" "ns1" "" "")) =
      [{ NamespacedName := { Namespace := "ns1", Name := "" } }] ∧
    (mkResource "t1" "ns1" "" "ns2").Spec.ConnectionRef.Name = "" ∧
    getConnectionRef (Object.PulsarTopic (mkResource "t1" "ns1" "" "ns2")) ≠ none ∧
    (PulsarConnectionRefMapper.mk).Map (Object.PulsarTopic (mkResource "t1" "ns1" "" "ns2")) =
      [{ NamespacedName := { Namespace := "ns2", Name := "" } }] := by
  refine ⟨rfl, ?_, ?_, rfl, ?_, ?_⟩ <;> decide

/-- C4, amended: for an object of a supported kind whose connection reference has an empty
name, `getConnectionRef` yields the embedded reference all the same, and `Map` returns one
request with the empty name, in the reference's namespace when that is set and in the
object's own namespace otherwise. -/
theorem unset_reference_still_mapped (p : PulsarConnectionRefMapper)
    (k : SupportedKind) (v : Resource) (hname : v.Spec.ConnectionRef.Name = "") :
    getConnectionRef (k.toObject v) = some v.Spec.ConnectionRef ∧
      p.Map (k.toObject v) =
        [{ NamespacedName :=
            { Namespace := if v.Spec.ConnectionRef.Namespace = "" then v.ObjectMeta.Namespace
                           else v.Spec.ConnectionRef.Namespace,
              Name := "" } }] := by
  refine ⟨getConnectionRef_toObject k v, ?_⟩
  simp [PulsarConnectionRefMapper.Map, getConnectionRefInfo_toObject, hname]

/-- An instance of the amended C4: a sink of namespace `ns1` whose reference has only the
namespace `ns2` set maps to the request of empty name in `ns2`. -/
theorem unset_reference_still_mapped_witness :
    (mkResource "s1" "ns1" "" "ns2").Spec.ConnectionRef.Name = "" ∧
    getConnectionRef (SupportedKind.pulsarSink.toObject (mkResource "s1" "ns1" "" "ns2")) =
      some { Name := "", Namespace := "ns2" } ∧
    (PulsarConnectionRefMapper.mk).Map
        (SupportedKind.pulsarSink.toObject (mkResource "s1" "ns1" "" "ns2")) =
      [{ NamespacedName := { Namespace := "ns2", Name := "" } }] :=
  ⟨rfl, unset_reference_still_mapped PulsarConnectionRefMapper.mk SupportedKind.pulsarSink
    (mkResource "s1" "ns1" "" "ns2") rfl⟩

/-! ## Shape of the result of `Map` -/

/-- C5: for every object, `Map` returns a sequence of length 0 or 1; it is empty exactly
when `getConnectionRefInfo` is absent, and when `getConnectionRefInfo` is present with
value `info` it is the single request of namespace `info.Namespace` and name
`info.Name`. -/
theorem map_zero_or_one (p : PulsarConnectionRefMapper) (object : Object) :
    ((p.Map object).length = 0 ∨ (p.Map object).length = 1) ∧
      (p.Map object = [] ↔ getConnectionRefInfo object = none) ∧
      ∀ info : ConnectionRefInfo, getConnectionRefInfo object = some info →
        p.Map object =
          [{ NamespacedName := { Namespace := info.Namespace, Name := info.Name } }] := by
  unfold PulsarConnectionRefMapper.Map
  cases h : getConnectionRefInfo object with
  | none => simp
  | some info => simp

/-- An instance of C5 on a present reference: the tenant `tn` of namespace `ns1`
referencing `conn1` maps to one request, built from the resolved info. -/
theorem map_zero_or_one_witness :
    getConnectionRefInfo (Object.PulsarTenant (mkResource "tn" "ns1" "conn1" "")) =
      some { Name := "conn1", Namespace := "ns1" } ∧
    (PulsarConnectionRefMapper.mk).Map (Object.PulsarTenant (mkResource "tn" "ns1" "conn1" "")) =
      [{ NamespacedName := { Namespace := "ns1", Name := "conn1" } }] :=
  ⟨by decide,
    (map_zero_or_one PulsarConnectionRefMapper.mk
      (Object.PulsarTenant (mkResource "tn" "ns1" "conn1" ""))).2.2
      { Name := "conn1", Namespace := "ns1" } (by decide)⟩

/-! ## Extraction of the reference -/

/-- C6: for each of the ten supported kinds and every object of that kind with a set
reference (a non-empty name), `getConnectionRef` returns exactly the `ConnectionRef`
embedded in the object's `Spec`. -/
theorem getConnectionRef_embedded (v : Resource) (_hset : v.Spec.ConnectionRef.Name ≠ "") :
    getConnectionRef (Object.PulsarTenant v) = some v.Spec.ConnectionRef ∧
    getConnectionRef (Object.PulsarNamespace v) = some v.Spec.ConnectionRef ∧
    getConnectionRef (Object.PulsarTopic v) = some v.Spec.ConnectionRef ∧
    getConnectionRef (Object.PulsarPermission v) = some v.Spec.ConnectionRef ∧
    getConnectionRef (Object.PulsarGeoReplication v) = some v.Spec.ConnectionRef ∧
    getConnectionRef (Object.PulsarFunction v) = some v.Spec.ConnectionRef ∧
    getConnectionRef (Object.PulsarSource v) = some v.Spec.ConnectionRef ∧
    getConnectionRef (Object.PulsarSink v) = some v.Spec.ConnectionRef ∧
    getConnectionRef (Object.PulsarPackage v) = some v.Spec.ConnectionRef ∧
    getConnectionRef (Object.PulsarNSIsolationPolicy v) = some v.Spec.ConnectionRef := by
  exact ⟨rfl, rfl, rfl, rfl, rfl, rfl, rfl, rfl, rfl, rfl⟩

/-- An instance of C6: the reference `conn1` in namespace `ns2` is returned unmodified for
a resource of each kind. -/
theorem getConnectionRef_embedded_witness :
    (mkResource "r1" "ns1" "conn1" "ns2").Spec.ConnectionRef.Name ≠ "" ∧
    getConnectionRef (Object.PulsarTenant (mkResource "r1" "ns1" "conn1" "ns2")) =
      some { Name := "conn1", Namespace := "ns2" } ∧
    getConnectionRef (Object.PulsarNamespace (mkResource "r1" "ns1" "conn1" "ns2")) =
      some { Name := "conn1", Namespace := "ns2" } ∧
    getConnectionRef (Object.PulsarTopic (mkResource "r1" "ns1" "conn1" "ns2")) =
      some { Name := "conn1", Namespace := "ns2" } ∧
    getConnectionRef (Object.PulsarPermission (mkResource "r1" "ns1" "conn1" "ns2")) =
      some { Name := "conn1", Namespace := "ns2" } ∧
    getConnectionRef (Object.PulsarGeoReplication (mkResource "r1" "ns1" "conn1" "ns2")) =
      some { Name := "conn1", Namespace := "ns2" } ∧
    getConnectionRef (Object.PulsarFunction (mkResource "r1" "ns1" "conn1" "ns2")) =
      some { Name := "conn1", Namespace := "ns2" } ∧
    getConnectionRef (Object.PulsarSource (mkResource "r1" "ns1" "conn1" "ns2")) =
      some { Name := "conn1", Namespace := "ns2" } ∧
    getConnectionRef (Object.PulsarSink (mkResource "r1" "ns1" "conn1" "ns2")) =
      some { Name := "conn1", Namespace := "ns2" } ∧
    getConnectionRef (Object.PulsarPackage (mkResource "r1" "ns1" "conn1" "ns2")) =
      some { Name := "conn1", Namespace := "ns2" } ∧
    getConnectionRef (Object.PulsarNSIsolationPolicy (mkResource "r1" "ns1" "conn1" "ns2")) =
      some { Name := "conn1", Namespace := "ns2" } :=
  ⟨by decide, getConnectionRef_embedded (mkResource "r1" "ns1" "conn1" "ns2") (by decide)⟩

/-! ## Resolution of the namespace -/

/-- C7, as stated, fails: a topic that carries the reference `conn1` without a namespace
and whose own namespace is empty resolves to an info with an empty namespace. -/
theorem resolved_namespace_counterexample :
    getConnectionRef (Object.PulsarTopic (mkResource "t1" "" "conn1" "")) =
      some { Name := "conn1", Namespace := "" } ∧
    getConnectionRefInfo (Object.PulsarTopic (mkResource "t1" "" "conn1" "")) =
      some { Name := "conn1", Namespace := "" } := by
  decide

/-- C7, amended: resolution is total, in that every object carrying a connection reference
gets a result from `getConnectionRefInfo`; the `Namespace` of that result is empty exactly
when the reference's namespace and the object's own namespace are both empty. -/
theorem resolved_namespace_empty_iff (object : Object) (ref : PulsarConnectionRef)
    (href : getConnectionRef object = some ref) :
    ∃ info : ConnectionRefInfo, getConnectionRefInfo object = some info ∧
      (info.Namespace = "" ↔ ref.Namespace = "" ∧ object.GetNamespace = "") := by
  refine ⟨_, getConnectionRefInfo_of_ref object ref href, ?_⟩
  by_cases hns : ref.Namespace = "" <;> simp [hns]

/-- An instance of the amended C7: the namespace `ns-a` of the object is the resolved
namespace of a function that references `conn1` without a namespace. -/
theorem resolved_namespace_empty_iff_witness :
    getConnectionRef (Object.PulsarFunction (mkResource "f1" "ns-a" "conn1" "")) =
      some { Name := "conn1", Namespace := "" } ∧
    ∃ info : ConnectionRefInfo,
      getConnectionRefInfo (Object.PulsarFunction (mkResource "f1" "ns-a" "conn1" "")) =
        some info ∧
      (info.Namespace = "" ↔
        (PulsarConnectionRef.mk "conn1" "").Namespace = "" ∧
          (Object.PulsarFunction (mkResource "f1" "ns-a" "conn1" "")).GetNamespace = "") :=
  ⟨rfl, resolved_namespace_empty_iff
    (Object.PulsarFunction (mkResource "f1" "ns-a" "conn1" "")) { Name := "conn1", Namespace := "" }
    rfl⟩

/-- C8, as stated, fails: a topic of the non-empty namespace `ns1` whose reference has an
empty name resolves to an info whose `Name` is empty. -/
theorem resolved_fields_counterexample :
    (Object.PulsarTopic (mkResource "t1" "ns1" "" "")).GetNamespace ≠ "" ∧
    getConnectionRefInfo (Object.PulsarTopic (mkResource "t1" "ns1" "" "")) =
      some { Name := "", Namespace := "ns1" } := by
  decide

/-- C8, amended: for an object whose own namespace is non-empty, a result of
`getConnectionRefInfo` has a non-empty `Namespace`, and its `Name` is the name of the
object's connection reference, hence non-empty exactly when that name is. -/
theorem resolved_fields_nonempty (object : Object) (ref : PulsarConnectionRef)
    (info : ConnectionRefInfo) (hown : object.GetNamespace ≠ "")
    (href : getConnectionRef object = some ref)
    (hinfo : getConnectionRefInfo object = some info) :
    info.Namespace ≠ "" ∧ info.Name = ref.Name ∧ (info.Name ≠ "" ↔ ref.Name ≠ "") := by
  rw [getConnectionRefInfo_of_ref object ref href] at hinfo
  cases hinfo
  by_cases hns : ref.Namespace = "" <;> simp [hns, hown]

/-- An instance of the amended C8: the package `pk` of namespace `ns1` that references
`conn1` resolves to an info with both fields non-empty. -/
theorem resolved_fields_nonempty_witness :
    (Object.PulsarPackage (mkResource "pk" "ns1" "conn1" "")).GetNamespace ≠ "" ∧
    getConnectionRef (Object.PulsarPackage (mkResource "pk" "ns1" "conn1" "")) =
      some { Name := "conn1", Namespace := "" } ∧
    getConnectionRefInfo (Object.PulsarPackage (mkResource "pk" "ns1" "conn1" "")) =
      some { Name := "conn1", Namespace := "ns1" } ∧
    (ConnectionRefInfo.mk "conn1" "ns1").Namespace ≠ "" ∧
    (ConnectionRefInfo.mk "conn1" "ns1").Name = (PulsarConnectionRef.mk "conn1" "").Name ∧
    ((ConnectionRefInfo.mk "conn1" "ns1").Name ≠ "" ↔
      (PulsarConnectionRef.mk "conn1" "").Name ≠ "") :=
  ⟨by decide, rfl, by decide,
    resolved_fields_nonempty (Object.PulsarPackage (mkResource "pk" "ns1" "conn1" ""))
      { Name := "conn1", Namespace := "" } { Name := "conn1", Namespace := "ns1" }
      (by decide) rfl (by decide)⟩

/-- C9: `GetConnectionNamespace` returns the reference's namespace when the object carries
a reference whose namespace is non-empty, and the object's own namespace otherwise: when
the reference's namespace is empty, and when the object carries no reference at all. -/
theorem GetConnectionNamespace_cases (object : Object) :
    (∀ ref : PulsarConnectionRef, getConnectionRef object = some ref → ref.Namespace ≠ "" →
        GetConnectionNamespace object = ref.Namespace) ∧
    (∀ ref : PulsarConnectionRef, getConnectionRef object = some ref → ref.Namespace = "" →
        GetConnectionNamespace object = object.GetNamespace) ∧
    (getConnectionRef object = none →
        GetConnectionNamespace object = object.GetNamespace) := by
  refine ⟨fun ref href hns => ?_, fun ref href hns => ?_, fun href => ?_⟩
  · simp [GetConnectionNamespace, getConnectionRefInfo_of_ref object ref href, hns]
  · simp [GetConnectionNamespace, getConnectionRefInfo_of_ref object ref href, hns]
  · simp [GetConnectionNamespace, getConnectionRefInfo_of_none object href]

/-- The three cases of C9 on concrete objects: a source in `ns-a` referencing into `ns-b`,
a source in `ns-a` referencing without a namespace, and an unrelated object in `ns-a`. -/
theorem GetConnectionNamespace_cases_witness :
    GetConnectionNamespace (Object.PulsarSource (mkResource "s1" "ns-a" "conn1" "ns-b")) = "ns-b" ∧
    GetConnectionNamespace (Object.PulsarSource (mkResource "s1" "ns-a" "conn1" "")) = "ns-a" ∧
    GetConnectionNamespace (Object.Other "Pod" { Name := "pod1", Namespace := "ns-a" }) = "ns-a" :=
  ⟨(GetConnectionNamespace_cases
      (Object.PulsarSource (mkResource "s1" "ns-a" "conn1" "ns-b"))).1
      { Name := "conn1", Namespace := "ns-b" } rfl (by decide),
    (GetConnectionNamespace_cases
      (Object.PulsarSource (mkResource "s1" "ns-a" "conn1" ""))).2.1
      { Name := "conn1", Namespace := "" } rfl rfl,
    (GetConnectionNamespace_cases
      (Object.Other "Pod" { Name := "pod1", Namespace := "ns-a" })).2.2 rfl⟩

/-! ## The index key -/

/-- C10: `MakeConnectionRefIndexKey name ns` is `ns ++ "/" ++ name`: its characters are
those of the namespace, then the single separator, then those of the name; in particular
the key of the name `foo` in the namespace `bar` is `bar/foo`. -/
theorem MakeConnectionRefIndexKey_format (name ns : String) :
    MakeConnectionRefIndexKey name ns = ns ++ "/" ++ name ∧
      (MakeConnectionRefIndexKey name ns).data = ns.data ++ '/' :: name.data ∧
      MakeConnectionRefIndexKey "foo" "bar" = "bar/foo" := by
  refine ⟨rfl, ?_, by decide⟩
  simp [MakeConnectionRefIndexKey, String.data_append]

/-- C11: the index key is reversible for well-formed inputs: for names and namespaces none
of which contains the character `/`, equal keys come from equal names and equal
namespaces. -/
theorem MakeConnectionRefIndexKey_injective (n₁ n₂ ns₁ ns₂ : String)
    (_hn₁ : '/' ∉ n₁.data) (_hn₂ : '/' ∉ n₂.data)
    (hns₁ : '/' ∉ ns₁.data) (hns₂ : '/' ∉ ns₂.data)
    (hkey : MakeConnectionRefIndexKey n₁ ns₁ = MakeConnectionRefIndexKey n₂ ns₂) :
    n₁ = n₂ ∧ ns₁ = ns₂ := by
  have hdata := congrArg String.data hkey
  rw [MakeConnectionRefIndexKey_data, MakeConnectionRefIndexKey_data] at hdata
  obtain ⟨e₁, e₂⟩ := append_sep_inj ns₁.data ns₂.data n₁.data n₂.data hns₁ hns₂ hdata
  exact ⟨String.ext e₂, String.ext e₁⟩

/-- An instance of C11 on the key `bar/foo`. -/
theorem MakeConnectionRefIndexKey_injective_witness :
    '/' ∉ "foo".data ∧ '/' ∉ "bar".data ∧
    MakeConnectionRefIndexKey "foo" "bar" = MakeConnectionRefIndexKey "foo" "bar" ∧
    "foo" = "foo" ∧ "bar" = "bar" :=
  ⟨by decide, by decide, rfl,
    MakeConnectionRefIndexKey_injective "foo" "foo" "bar" "bar"
      (by decide) (by decide) (by decide) (by decide) rfl⟩

/-- C12: the index key is injective within a namespace: for one namespace and any two
names, whatever their characters, equal keys come from equal names. -/
theorem MakeConnectionRefIndexKey_injective_in_namespace (ns n₁ n₂ : String)
    (hkey : MakeConnectionRefIndexKey n₁ ns = MakeConnectionRefIndexKey n₂ ns) :
    n₁ = n₂ := by
  have hdata := congrArg String.data hkey
  rw [MakeConnectionRefIndexKey_data, MakeConnectionRefIndexKey_data] at hdata
  have htail := List.append_cancel_left hdata
  exact String.ext (List.cons.inj htail).2

/-- An instance of C12 with a name and a namespace that contain the separator. -/
theorem MakeConnectionRefIndexKey_injective_in_namespace_witness :
    MakeConnectionRefIndexKey "b/c" "a/x" = MakeConnectionRefIndexKey "b/c" "a/x" ∧
    "b/c" = "b/c" :=
  ⟨rfl, MakeConnectionRefIndexKey_injective_in_namespace "a/x" "b/c" "b/c" rfl⟩

/-- C18: without the well-formedness precondition the index key is not injective: the
name `b/c` in the namespace `a` and the name `c` in the namespace `a/b` are distinct
pairs, each with a component that contains `/`, and both have the key `a/b/c`. -/
theorem MakeConnectionRefIndexKey_not_injective :
    MakeConnectionRefIndexKey "b/c" "a" = "a/b/c" ∧
    MakeConnectionRefIndexKey "c" "a/b" = "a/b/c" ∧
    ("b/c", "a") ≠ ("c", "a/b") ∧
    '/' ∈ "b/c".data ∧ '/' ∈ "a/b".data ∧
    ∃ n₁ ns₁ n₂ ns₂ : String, (n₁, ns₁) ≠ (n₂, ns₂) ∧
      ('/' ∈ n₁.data ∨ '/' ∈ ns₁.data ∨ '/' ∈ n₂.data ∨ '/' ∈ ns₂.data) ∧
      MakeConnectionRefIndexKey n₁ ns₁ = MakeConnectionRefIndexKey n₂ ns₂ := by
  refine ⟨by decide, by decide, by decide, by decide, by decide,
    "b/c", "a", "c", "a/b", by decide, Or.inl (by decide), by decide⟩

/-! ## The two entry points -/

/-- C14: the two entry points agree: for every context, receiver and object,
`ConnectionRefMapper` returns what `Map` returns, and the context has no influence on
the result. -/
theorem ConnectionRefMapper_eq_Map {Ctx Ctx₂ : Type} (ctx : Ctx) (ctx₂ : Ctx₂)
    (p : PulsarConnectionRefMapper) (object : Object) :
    ConnectionRefMapper ctx object = p.Map object ∧
      ConnectionRefMapper ctx object = ConnectionRefMapper ctx₂ object := by
  constructor
  · unfold ConnectionRefMapper PulsarConnectionRefMapper.Map
    cases getConnectionRefInfo object <;> rfl
  · unfold ConnectionRefMapper
    cases getConnectionRefInfo object <;> rfl

/-! ## What decides the result of `Map` -/

/-- C15: `Map` returns a non-empty sequence if and only if the object is of one of the ten
supported kinds: an object of a supported kind gets exactly one request whatever its
connection reference holds, an empty name included, and any other object gets none. -/
theorem map_nonempty_iff_supported (p : PulsarConnectionRefMapper) (object : Object) :
    (p.Map object ≠ [] ↔ ∃ (k : SupportedKind) (v : Resource), object = k.toObject v) ∧
      (∀ (k : SupportedKind) (v : Resource), (p.Map (k.toObject v)).length = 1) ∧
      ((∀ (k : SupportedKind) (v : Resource), object ≠ k.toObject v) → p.Map object = []) := by
  have hone : ∀ (k : SupportedKind) (v : Resource), (p.Map (k.toObject v)).length = 1 := by
    intro k v
    simp [PulsarConnectionRefMapper.Map, getConnectionRefInfo_toObject]
  have hsupp : (∃ (k : SupportedKind) (v : Resource), object = k.toObject v) ∨
      p.Map object = [] := by
    cases object with
    | Other kind m => exact Or.inr rfl
    | PulsarTenant v => exact Or.inl ⟨.pulsarTenant, v, rfl⟩
    | PulsarNamespace v => exact Or.inl ⟨.pulsarNamespace, v, rfl⟩
    | PulsarTopic v => exact Or.inl ⟨.pulsarTopic, v, rfl⟩
    | PulsarPermission v => exact Or.inl ⟨.pulsarPermission, v, rfl⟩
    | PulsarGeoReplication v => exact Or.inl ⟨.pulsarGeoReplication, v, rfl⟩
    | PulsarFunction v => exact Or.inl ⟨.pulsarFunction, v, rfl⟩
    | PulsarSource v => exact Or.inl ⟨.pulsarSource, v, rfl⟩
    | PulsarSink v => exact Or.inl ⟨.pulsarSink, v, rfl⟩
    | PulsarPackage v => exact Or.inl ⟨.pulsarPackage, v, rfl⟩
    | PulsarNSIsolationPolicy v => exact Or.inl ⟨.pulsarNSIsolationPolicy, v, rfl⟩
  refine ⟨⟨fun hne => ?_, fun hex => ?_⟩, hone, fun hnot => ?_⟩
  · exact hsupp.resolve_right hne
  · obtain ⟨k, v, rfl⟩ := hex
    intro hnil
    have := hone k v
    rw [hnil] at this
    exact absurd this (by decide)
  · exact hsupp.resolve_left (fun ⟨k, v, e⟩ => hnot k v e)

/-- Instances of C15: a namespace resource whose reference is wholly empty gets one
request, and an unrelated object gets none. -/
theorem map_nonempty_iff_supported_witness :
    ((PulsarConnectionRefMapper.mk).Map
        (SupportedKind.pulsarNamespace.toObject (mkResource "n1" "ns1" "" ""))).length = 1 ∧
    (PulsarConnectionRefMapper.mk).Map
      (Object.Other "Pod" { Name := "pod1", Namespace := "ns1" }) = [] :=
  ⟨(map_nonempty_iff_supported PulsarConnectionRefMapper.mk
      (Object.Other "Pod" { Name := "pod1", Namespace := "ns1" })).2.1
      SupportedKind.pulsarNamespace (mkResource "n1" "ns1" "" ""),
    (map_nonempty_iff_supported PulsarConnectionRefMapper.mk
      (Object.Other "Pod" { Name := "pod1", Namespace := "ns1" })).2.2
      (fun k v => by cases k <;> simp [SupportedKind.toObject])⟩

/-- C16: the result of `Map` depends only on the connection reference and on the object's
own namespace: two objects of supported kinds, of the same kind or not, with equal
connection references and equal own namespaces get equal results, whatever their names
and their other fields. -/
theorem map_depends_on_ref_and_namespace (p : PulsarConnectionRefMapper)
    (k₁ k₂ : SupportedKind) (v₁ v₂ : Resource)
    (href : v₁.Spec.ConnectionRef = v₂.Spec.ConnectionRef)
    (hns : v₁.ObjectMeta.Namespace = v₂.ObjectMeta.Namespace) :
    p.Map (k₁.toObject v₁) = p.Map (k₂.toObject v₂) := by
  simp [PulsarConnectionRefMapper.Map, getConnectionRefInfo_toObject, href, hns]

/-- An instance of C16: a topic and a sink of different names and different other fields,
both in `ns1` and both referencing `conn1`, get the same result. -/
theorem map_depends_on_ref_and_namespace_witness :
    (PulsarConnectionRefMapper.mk).Map
        (Object.PulsarTopic
          { ObjectMeta := { Name := "t1", Namespace := "ns1" },
            Spec := { ConnectionRef := { Name := "conn1", Namespace := "" },
                      Rest := [("partitions", "3")] } }) =
      (PulsarConnectionRefMapper.mk).Map
        (Object.PulsarSink
          { ObjectMeta := { Name := "s1", Namespace := "ns1" },
            Spec := { ConnectionRef := { Name := "conn1", Namespace := "" },
                      Rest := [("parallelism", "1")] } }) :=
  map_depends_on_ref_and_namespace PulsarConnectionRefMapper.mk
    SupportedKind.pulsarTopic SupportedKind.pulsarSink
    { ObjectMeta := { Name := "t1", Namespace := "ns1" },
      Spec := { ConnectionRef := { Name := "conn1", Namespace := "" },
                Rest := [("partitions", "3")] } }
    { ObjectMeta := { Name := "s1", Namespace := "ns1" },
      Spec := { ConnectionRef := { Name := "conn1", Namespace := "" },
                Rest := [("parallelism", "1")] } }
    rfl rfl

/-- C17: the request producer and the namespace accessor agree: for a request `r` that
`Map` returns for an object, the namespace of `r` is `GetConnectionNamespace` of the
object, the object carries a reference whose name is the name of `r`, and the index key
of `r` is the index key of the reference's name in `GetConnectionNamespace` of the
object. -/
theorem map_agrees_with_GetConnectionNamespace (p : PulsarConnectionRefMapper)
    (object : Object) (r : Request) (hr : r ∈ p.Map object) :
    r.NamespacedName.Namespace = GetConnectionNamespace object ∧
      ∃ ref : PulsarConnectionRef, getConnectionRef object = some ref ∧
        r.NamespacedName.Name = ref.Name ∧
        MakeConnectionRefIndexKey r.NamespacedName.Name r.NamespacedName.Namespace =
          MakeConnectionRefIndexKey ref.Name (GetConnectionNamespace object) := by
  cases href : getConnectionRef object with
  | none =>
    simp [PulsarConnectionRefMapper.Map, getConnectionRefInfo_of_none object href] at hr
  | some ref =>
    simp only [PulsarConnectionRefMapper.Map, getConnectionRefInfo_of_ref object ref href,
      List.mem_singleton] at hr
    subst hr
    simp [GetConnectionNamespace, getConnectionRefInfo_of_ref object ref href]

/-- An instance of C17: the request of a geo-replication in `ns1` that references `conn1`
in `ns2` has the namespace `ns2` that `GetConnectionNamespace` gives, and the key
`ns2/conn1`. -/
theorem map_agrees_with_GetConnectionNamespace_witness :
    (Request.mk { Namespace := "ns2", Name := "conn1" }) ∈
      (PulsarConnectionRefMapper.mk).Map
        (Object.PulsarGeoReplication (mkResource "g1" "ns1" "conn1" "ns2")) ∧
    GetConnectionNamespace
      (Object.PulsarGeoReplication (mkResource "g1" "ns1" "conn1" "ns2")) = "ns2" ∧
    MakeConnectionRefIndexKey "conn1" "ns2" = "ns2/conn1" ∧
    ((Request.mk { Namespace := "ns2", Name := "conn1" }).NamespacedName.Namespace =
        GetConnectionNamespace
          (Object.PulsarGeoReplication (mkResource "g1" "ns1" "conn1" "ns2")) ∧
      ∃ ref : PulsarConnectionRef,
        getConnectionRef
          (Object.PulsarGeoReplication (mkResource "g1" "ns1" "conn1" "ns2")) = some ref ∧
        (Request.mk { Namespace := "ns2", Name := "conn1" }).NamespacedName.Name = ref.Name ∧
        MakeConnectionRefIndexKey
            (Request.mk { Namespace := "ns2", Name := "conn1" }).NamespacedName.Name
            (Request.mk { Namespace := "ns2", Name := "conn1" }).NamespacedName.Namespace =
          MakeConnectionRefIndexKey ref.Name
            (GetConnectionNamespace
              (Object.PulsarGeoReplication (mkResource "g1" "ns1" "conn1" "ns2")))) :=
  ⟨by decide, by decide, by decide,
    map_agrees_with_GetConnectionNamespace PulsarConnectionRefMapper.mk
      (Object.PulsarGeoReplication (mkResource "g1" "ns1" "conn1" "ns2"))
      (Request.mk { Namespace := "ns2", Name := "conn1" }) (by decide)⟩

end Controllers
